import Mathlib

/-!
Shallow embedding of the gossip node from `src/node.rs` and
`src/neighbourhood.rs` (the authoritative last revision of the repository),
together with theorems settling the specification claims.

Modelling conventions:
* `SocketAddrV4` is modelled by an abstract address type `Addr := Nat`.
* Rust `u8` and `u32` counters are modelled as `Nat` with explicit
  reduction modulo `2^8` respectively `2^32` at each increment, mirroring
  wrap-around machine arithmetic.
* `HashMap<SocketAddrV4, Neighbour>` is modelled as a list of keys plus a
  valuation function; a key is appended when absent, insertion of an
  existing key replaces its value.  `HashMap<u32, (SocketAddrV4, Instant)>`
  is modelled as an association list with key-replacing insertion; the
  batch removal of the collected stale keys in `CheckReplies` is the
  retain-filter on a key-unique map.
* `Instant` is an abstract monotone timestamp `Nat`; every reducer step
  takes the current instant `now` as a parameter, and `elapsed` is
  truncated subtraction.
-/

/-- Abstract peer address standing for `SocketAddrV4`. -/
abbrev Addr := Nat

/-- The two accusation axes, from `neighbourhood.rs` (`enum Charge`). -/
inductive Charge where
  | connection
  | reply
deriving DecidableEq

/-- Per-peer suspicion counters (`struct Suspicion`), `u8` in the source. -/
structure Suspicion where
  connection : Nat
  reply : Nat
deriving DecidableEq

/-- The `Default` impl for `Suspicion`: both counters zero. -/
def Suspicion.default : Suspicion := ⟨0, 0⟩

/-- `Suspicion::accuse`: increment the named counter (`u8` wrap-around). -/
def Suspicion.accuse (s : Suspicion) (c : Charge) : Suspicion :=
  match c with
  | Charge.connection => { s with connection := (s.connection + 1) % 256 }
  | Charge.reply => { s with reply := (s.reply + 1) % 256 }

/-- `Suspicion::object`: reset the named counter to 0. -/
def Suspicion.object (s : Suspicion) (c : Charge) : Suspicion :=
  match c with
  | Charge.connection => { s with connection := 0 }
  | Charge.reply => { s with reply := 0 }

/-- `Suspicion::jury_ruling`: force both counters to the threshold 3. -/
def Suspicion.jury_ruling (_s : Suspicion) : Suspicion := ⟨3, 3⟩

/-- `Suspicion::is_suspicious`: either counter has reached 3. -/
def Suspicion.is_suspicious (s : Suspicion) : Bool :=
  decide (3 ≤ s.reply) || decide (3 ≤ s.connection)

/-- Per-peer record (`struct Neighbour`). -/
structure Neighbour where
  suspicion : Suspicion
  suspected_by : Finset Addr
  online : Bool
deriving DecidableEq

/-- The `Default` impl for `Neighbour`: fresh counters, no accusers, online. -/
def Neighbour.default : Neighbour := ⟨Suspicion.default, ∅, true⟩

/-- Pointwise update of a valuation function at one address. -/
def updVal (f : Addr → Neighbour) (a : Addr) (v : Neighbour) : Addr → Neighbour :=
  fun x => if x = a then v else f x

/-- `struct Neighbourhood(HashMap<SocketAddrV4, Neighbour>)`, modelled as the
list of present keys together with a valuation function. -/
structure Neighbourhood where
  keys : List Addr
  val : Addr → Neighbour

namespace Neighbourhood

/-- `Neighbourhood::new`: the empty map. -/
def new : Neighbourhood := ⟨[], fun _ => Neighbour.default⟩

/-- Number of entries (`self.0.len()`). -/
def size (nb : Neighbourhood) : Nat := nb.keys.length

/-- Map lookup: the stored record when the key is present. -/
def lookup (nb : Neighbourhood) (a : Addr) : Option Neighbour :=
  if a ∈ nb.keys then some (nb.val a) else none

/-- `Neighbourhood::is_registered`: key membership. -/
def is_registered (nb : Neighbourhood) (a : Addr) : Bool :=
  decide (a ∈ nb.keys)

/-- `Neighbourhood::register`: insert a fresh default `Neighbour`, evicting
any existing entry at the same address. -/
def register (nb : Neighbourhood) (a : Addr) : Neighbourhood :=
  { keys := if a ∈ nb.keys then nb.keys else nb.keys ++ [a],
    val := updVal nb.val a Neighbour.default }

/-- `Neighbourhood::accuse`: `entry(..).and_modify`, so a no-op on an
unregistered address. -/
def accuse (nb : Neighbourhood) (a : Addr) (c : Charge) : Neighbourhood :=
  if a ∈ nb.keys then
    { nb with val := updVal nb.val a { nb.val a with suspicion := (nb.val a).suspicion.accuse c } }
  else nb

/-- `Neighbourhood::dismiss`: `entry(..).and_modify` with `object`. -/
def dismiss (nb : Neighbourhood) (a : Addr) (c : Charge) : Neighbourhood :=
  if a ∈ nb.keys then
    { nb with val := updVal nb.val a { nb.val a with suspicion := (nb.val a).suspicion.object c } }
  else nb

/-- The per-entry body of the loop in `Neighbourhood::report`. -/
def reportOne (sz : Nat) (suspects : Finset Addr) (accuser : Addr) (a : Addr)
    (n : Neighbour) : Neighbour :=
  let sb := if a ∈ suspects then insert accuser n.suspected_by else n.suspected_by.erase accuser
  if 3 ≤ sz ∧ sz / 2 < sb.card then
    { suspicion := n.suspicion.jury_ruling, suspected_by := sb, online := false }
  else
    { n with suspected_by := sb, online := true }

/-- `Neighbourhood::report`: update every entry's `suspected_by` with the
accuser and re-evaluate the quorum verdict against the current size. -/
def report (nb : Neighbourhood) (suspects : Finset Addr) (accuser : Addr) : Neighbourhood :=
  { keys := nb.keys,
    val := fun a => if a ∈ nb.keys then reportOne nb.size suspects accuser a (nb.val a) else nb.val a }

/-- `Neighbourhood::get_suspects`: addresses whose local suspicion reached
the threshold on either axis. -/
def get_suspects (nb : Neighbourhood) : Finset Addr :=
  (nb.keys.filter (fun a => (nb.val a).suspicion.is_suspicious)).toFinset

/-- `Neighbourhood::select_gossipers`: all currently online addresses. -/
def select_gossipers (nb : Neighbourhood) : List Addr :=
  nb.keys.filter (fun a => (nb.val a).online)

/-- `Neighbourhood::get_all_neighbours`: all keys. -/
def get_all_neighbours (nb : Neighbourhood) : List Addr :=
  nb.keys

end Neighbourhood

/-- Wire payload (`enum Payload` in `node.rs`). -/
inductive Payload where
  | register
  | registerOk (known : List Addr)
  | gossipRandom (message : String)
  | gossipRandomOk
  | gossipSuspect (suspects : Finset Addr)
  | gossipSuspectOk
deriving DecidableEq

/-- `Payload::requires_reply`: fixed property of the payload tag. -/
def Payload.requires_reply (p : Payload) : Bool :=
  match p with
  | Payload.register | Payload.gossipRandom _ | Payload.gossipSuspect _ => true
  | Payload.registerOk _ | Payload.gossipRandomOk | Payload.gossipSuspectOk => false

/-- Classification of the reply (`*Ok`) payload tags, used by the
pending-reply bookkeeping specification. -/
def Payload.isOk (p : Payload) : Bool :=
  match p with
  | Payload.registerOk _ | Payload.gossipRandomOk | Payload.gossipSuspectOk => true
  | Payload.register | Payload.gossipRandom _ | Payload.gossipSuspect _ => false

/-- Wire envelope (`struct Message`). -/
structure Message where
  src : Addr
  dst : Addr
  id : Nat
  reply_to : Option Nat
  payload : Payload
deriving DecidableEq

/-- Scheduled events (`enum Trigger`). -/
inductive Trigger where
  | register (a : Addr)
  | gossipRandom
  | gossipSuspects
  | strike (a : Addr)
  | checkReplies
deriving DecidableEq

/-- Reducer input (`enum Event`). -/
inductive Event where
  | message (m : Message)
  | trigger (t : Trigger)
deriving DecidableEq

/-- `STALE_TIMEOUT` (10 seconds), in abstract time units. -/
def STALE_TIMEOUT : Nat := 10

/-- Pending-reply table `HashMap<u32, (SocketAddrV4, Instant)>`:
association list of message id to destination and dispatch instant. -/
abbrev AwaitMap := List (Nat × Addr × Nat)

/-- Lookup of a pending entry by message id. -/
def lookupAw (m : AwaitMap) (k : Nat) : Option (Addr × Nat) :=
  (m.find? (fun e => decide (e.1 = k))).map (fun e => e.2)

/-- `HashMap::remove` on the pending table (key-unique map). -/
def removeAw (m : AwaitMap) (k : Nat) : AwaitMap :=
  m.filter (fun e => decide (e.1 ≠ k))

/-- `HashMap::insert` on the pending table: replace any entry at the key. -/
def insertAw (m : AwaitMap) (k : Nat) (v : Addr × Nat) : AwaitMap :=
  removeAw m k ++ [(k, v)]

/-- Reducer-owned state of `struct Node` (`src`, `cnt`, `neighbourhood`,
`awaiting_reply`; the channels are external collaborators). -/
structure NodeState where
  src : Addr
  cnt : Nat
  neighbourhood : Neighbourhood
  awaiting_reply : AwaitMap

namespace NodeState

/-- `Node::new`: counter zero, empty neighbourhood, empty pending table. -/
def new (addr : Addr) : NodeState :=
  ⟨addr, 0, Neighbourhood.new, []⟩

/-- `Node::message`, the message factory: increment the `u32` counter,
record a pending entry when the payload requires a reply, and build the
envelope carrying the fresh id. -/
def message (st : NodeState) (now : Nat) (dst : Addr) (reply_to : Option Nat)
    (payload : Payload) : NodeState × Message :=
  let cnt' := (st.cnt + 1) % 4294967296
  let aw := if payload.requires_reply then insertAw st.awaiting_reply cnt' (dst, now)
            else st.awaiting_reply
  ({ st with cnt := cnt', awaiting_reply := aw },
   { src := st.src, dst := dst, id := cnt', reply_to := reply_to, payload := payload })

end NodeState

/-- Emission loop shared by `Node::gossip` and `Node::gossip_suspects`: one
factory-built message with the given payload per destination, in order. -/
def emitToAll (st : NodeState) (now : Nat) (p : Payload) :
    List Addr → NodeState × List Message
  | [] => (st, [])
  | d :: rest =>
    let sm := st.message now d none p
    let rec' := emitToAll sm.1 now p rest
    (rec'.1, sm.2 :: rec'.2)

/-- The body of the `RegisterOk` loop in `Node::handle_message`: register
each address and emit a fresh `Register` (no `reply_to`) to it. -/
def emitRegisters (st : NodeState) (now : Nat) :
    List Addr → NodeState × List Message
  | [] => (st, [])
  | a :: rest =>
    let st1 := { st with neighbourhood := st.neighbourhood.register a }
    let sm := st1.message now a none Payload.register
    let rec' := emitRegisters sm.1 now rest
    (rec'.1, sm.2 :: rec'.2)

/-- The gossip text built in `Node::gossip`. -/
def gossipText (a : Addr) : String :=
  "Some spicy scoop from " ++ toString a

namespace NodeState

/-- `Node::gossip`: a `GossipRandom` message to every selected gossiper. -/
def gossip (st : NodeState) (now : Nat) : NodeState × List Message :=
  emitToAll st now (Payload.gossipRandom (gossipText st.src)) st.neighbourhood.select_gossipers

/-- `Node::gossip_suspects`: nothing when there are no local suspects,
otherwise a `GossipSuspect` message to every selected gossiper. -/
def gossip_suspects (st : NodeState) (now : Nat) : NodeState × List Message :=
  let suspects := st.neighbourhood.get_suspects
  if suspects = ∅ then (st, [])
  else emitToAll st now (Payload.gossipSuspect suspects) st.neighbourhood.select_gossipers

/-- `Node::handle_reply`: remove the pending entry named by `reply_to` when
present, and dismiss the `Reply` charge only when the recorded destination
matches the actual sender.  Absent or unknown `reply_to` only warns. -/
def handle_reply (st : NodeState) (reply_id : Option Nat) (src : Addr) : NodeState :=
  match reply_id with
  | none => st
  | some rid =>
    match lookupAw st.awaiting_reply rid with
    | none => st
    | some (dst, _sended_at) =>
      let st1 := { st with awaiting_reply := removeAw st.awaiting_reply rid }
      if dst = src then
        { st1 with neighbourhood := st1.neighbourhood.dismiss src Charge.reply }
      else st1

/-- `Node::handle_message`: unconditionally dismiss the `Connection` charge
for the sender, then dispatch on the payload. -/
def handle_message (st : NodeState) (now : Nat) (msg : Message) :
    NodeState × List Message :=
  let st := { st with neighbourhood := st.neighbourhood.dismiss msg.src Charge.connection }
  match msg.payload with
  | Payload.register =>
    let neighbours := st.neighbourhood.get_all_neighbours
    let st := { st with neighbourhood := st.neighbourhood.register msg.src }
    let sm := st.message now msg.src (some msg.id) (Payload.registerOk neighbours)
    (sm.1, [sm.2])
  | Payload.registerOk known =>
    let st := st.handle_reply msg.reply_to msg.src
    let to_register := known.filter (fun n => !(st.neighbourhood.is_registered n))
    emitRegisters st now to_register
  | Payload.gossipRandom _ =>
    let sm := st.message now msg.src (some msg.id) Payload.gossipRandomOk
    (sm.1, [sm.2])
  | Payload.gossipSuspect suspects =>
    let st := { st with neighbourhood := st.neighbourhood.report suspects msg.src }
    let sm := st.message now msg.src (some msg.id) Payload.gossipSuspectOk
    (sm.1, [sm.2])
  | Payload.gossipRandomOk => (st.handle_reply msg.reply_to msg.src, [])
  | Payload.gossipSuspectOk => (st.handle_reply msg.reply_to msg.src, [])

/-- `Node::handle_trigger`. -/
def handle_trigger (st : NodeState) (now : Nat) (t : Trigger) :
    NodeState × List Message :=
  match t with
  | Trigger.register dst =>
    let st := { st with neighbourhood := st.neighbourhood.register dst }
    let sm := st.message now dst none Payload.register
    (sm.1, [sm.2])
  | Trigger.gossipRandom => st.gossip now
  | Trigger.gossipSuspects => st.gossip_suspects now
  | Trigger.strike a =>
    ({ st with neighbourhood := st.neighbourhood.accuse a Charge.connection }, [])
  | Trigger.checkReplies =>
    let stale := st.awaiting_reply.filter (fun e => decide (STALE_TIMEOUT < now - e.2.2))
    let aw := st.awaiting_reply.filter (fun e => decide (¬ STALE_TIMEOUT < now - e.2.2))
    let nb := stale.foldl (fun nbh e => nbh.accuse e.2.1 Charge.reply) st.neighbourhood
    ({ st with awaiting_reply := aw, neighbourhood := nb }, [])

/-- `Node::step`: the event reducer. -/
def step (st : NodeState) (now : Nat) (ev : Event) : NodeState × List Message :=
  match ev with
  | Event.trigger t => st.handle_trigger now t
  | Event.message m => st.handle_message now m

end NodeState

/-- Folding the reducer over a timestamped event trace (the event loop's
sequential consumption of the inbox). -/
def runNode (st : NodeState) : List (Nat × Event) → NodeState
  | [] => st
  | (now, ev) :: rest => runNode (st.step now ev).1 rest

/-- The mutating operations of the `Neighbourhood` interface; every change
the node makes to its neighbourhood goes through one of these. -/
inductive NOp where
  | register (a : Addr)
  | accuse (a : Addr) (c : Charge)
  | dismiss (a : Addr) (c : Charge)
  | report (suspects : Finset Addr) (accuser : Addr)

/-- Apply one mutating operation. -/
def applyNOp (nb : Neighbourhood) : NOp → Neighbourhood
  | NOp.register a => nb.register a
  | NOp.accuse a c => nb.accuse a c
  | NOp.dismiss a c => nb.dismiss a c
  | NOp.report s acc => nb.report s acc

/-- A reachable neighbourhood: the fold of an operation trace from the
empty map produced by `Neighbourhood::new`. -/
def runN (ops : List NOp) : Neighbourhood :=
  ops.foldl applyNOp Neighbourhood.new

/-- The concrete trace used to witness C1: three peers registered, then
peer 1 reported suspicious by peers 2 and 3. -/
def c1ops : List NOp :=
  [NOp.register 1, NOp.register 2, NOp.register 3,
   NOp.report {1} 2, NOp.report {1} 3]

/-- The `u8` successor used by `Suspicion::accuse`. -/
def u8succ (c : Nat) : Nat := (c + 1) % 256

/-- Concrete node state used to witness C6: one registered peer 5; pending
entries 1 and 3 dispatched at instant 0, entry 2 at instant 100. -/
def c6st : NodeState :=
  ⟨0, 0, ⟨[5], fun _ => Neighbour.default⟩, [(1, (5, 0)), (2, (5, 100)), (3, (7, 0))]⟩

/-- State after `n` successive calls of the message factory `Node::message`
(every outbound message of the node is produced through this factory, and
nothing else touches `cnt`). -/
def emitIter (st : NodeState) (now : Nat) : Nat → NodeState
  | 0 => st
  | n + 1 => ((emitIter st now n).message now 0 none (Payload.gossipRandom "x")).1

/-- The message produced by the `(n+1)`-th factory call. -/
def nthMsg (st : NodeState) (now : Nat) (n : Nat) : Message :=
  ((emitIter st now n).message now 0 none (Payload.gossipRandom "x")).2

/-- A step of the connection-counter exercise used by claim C9. -/
inductive ConnOp where
  | accuse
  | dismiss

/-- Apply a sequence of `accuse(Connection)` and `dismiss(Connection)`
operations to one peer of a neighbourhood, through the source operations. -/
def connRun (nb : Neighbourhood) (p : Addr) (ops : List ConnOp) : Neighbourhood :=
  ops.foldl (fun nbh op =>
    match op with
    | ConnOp.accuse => nbh.accuse p Charge.connection
    | ConnOp.dismiss => nbh.dismiss p Charge.connection) nb

/-- The bare `u8` connection counter under the same operation sequence
(the counter arithmetic of `Suspicion::accuse` and `Suspicion::object`). -/
def connStepU8 (c : Nat) : ConnOp → Nat
  | ConnOp.accuse => (c + 1) % 256
  | ConnOp.dismiss => 0

/-- The unbounded accusation count: how many `accuse` operations since the
last `dismiss` (or since the start). -/
def natStep (c : Nat) : ConnOp → Nat
  | ConnOp.accuse => c + 1
  | ConnOp.dismiss => 0

/-- Modelled from the spec: the reference connection counter that clamps at
the suspicion threshold 3 (the spec offers "clamp or let it grow" as
observationally equivalent implementations). -/
def clampStep (c : Nat) : ConnOp → Nat
  | ConnOp.accuse => min (c + 1) 3
  | ConnOp.dismiss => 0

/-- Unbounded accusation count of a whole sequence. -/
def natRun (ops : List ConnOp) : Nat := ops.foldl natStep 0

/-- Clamped reference counter after a whole sequence. -/
def clampRun (ops : List ConnOp) : Nat := ops.foldl clampStep 0

/-- Concrete state for the C8 counterexample: peer 5 is already registered. -/
def c8st : NodeState :=
  ⟨0, 0, ⟨[5], fun _ => Neighbour.default⟩, []⟩

/-- Concrete state for the C7 counterexample: three peers, peer 1 already
suspected by peers 2 and 3. -/
def c7st : NodeState :=
  ⟨0, 0, ⟨[1, 2, 3], fun a => if a = 1 then ⟨⟨0, 0⟩, {2, 3}, false⟩ else Neighbour.default⟩, []⟩

/-- Concrete state for the C5 counterexample and witness: registered peer 7
with one `Connection` charge; pending entry 5 recorded for destination 8. -/
def c5st : NodeState :=
  ⟨0, 0, ⟨[7], fun _ => ⟨⟨1, 0⟩, ∅, true⟩⟩, [(5, (8, 0))]⟩

/-- The node state right after the unconditional connection dismissal and
the `handle_reply` call of the `RegisterOk` handler, before the
registration loop. -/
def replyHandled (st : NodeState) (msrc : Nat) (rto : Option Nat) : NodeState :=
  ({ st with neighbourhood := st.neighbourhood.dismiss msrc Charge.connection
   } : NodeState).handle_reply rto msrc

/-- The pending-table update prescribed by P2 for one reducer step: a
`reply_to` carried by an inbound reply payload answers (removes) that id,
`CheckReplies` drops the entries older than `STALE_TIMEOUT`, and every
emitted reply-requiring message records its id, destination and dispatch
instant. -/
def specUpdate (aw : AwaitMap) (now : Nat) (ev : Event) (outs : List Message) : AwaitMap :=
  let aw1 :=
    match ev with
    | Event.message m =>
      if m.payload.isOk then
        match m.reply_to with
        | some i => removeAw aw i
        | none => aw
      else aw
    | Event.trigger Trigger.checkReplies =>
      aw.filter (fun e => decide (¬ STALE_TIMEOUT < now - e.2.2))
    | Event.trigger _ => aw
  outs.foldl (fun acc m =>
    if m.payload.requires_reply then insertAw acc m.id (m.dst, now) else acc) aw1

/-- Folding the per-step specification table over a trace, alongside the
node itself. -/
def specRun (st : NodeState) (aw : AwaitMap) : List (Nat × Event) → AwaitMap
  | [] => aw
  | (now, ev) :: rest =>
    specRun (st.step now ev).1 (specUpdate aw now ev (st.step now ev).2) rest

theorem runN_append (l : List NOp) (op : NOp) :
    runN (l ++ [op]) = applyNOp (runN l) op := by
  unfold runN
  rw [List.foldl_append]
  rfl

namespace Neighbourhood

theorem lookup_register_self (nb : Neighbourhood) (a : Addr) :
    (nb.register a).lookup a = some Neighbour.default := by
  by_cases h : a ∈ nb.keys <;>
    simp [register, lookup, updVal, h]

theorem lookup_register_ne (nb : Neighbourhood) {a p : Addr} (h : p ≠ a) :
    (nb.register a).lookup p = nb.lookup p := by
  by_cases hk : a ∈ nb.keys <;>
    simp [register, lookup, updVal, hk, h]

theorem lookup_accuse (nb : Neighbourhood) (a : Addr) (c : Charge) (p : Addr)
    (n : Neighbour) (h : (nb.accuse a c).lookup p = some n) :
    ∃ n0, nb.lookup p = some n0 ∧ n0.online = n.online ∧
      n0.suspected_by = n.suspected_by := by
  by_cases hk : a ∈ nb.keys
  · by_cases hpa : p = a
    · subst hpa
      refine ⟨nb.val p, ?_, ?_⟩
      · simp [lookup, hk]
      · simp [accuse, lookup, updVal, hk] at h
        cases h
        simp
    · simp [accuse, lookup, updVal, hk, hpa] at h ⊢
      obtain ⟨hp, rfl⟩ := h
      simp [hp]
  · simp [accuse, hk] at h
    exact ⟨n, h, rfl, rfl⟩

theorem lookup_dismiss (nb : Neighbourhood) (a : Addr) (c : Charge) (p : Addr)
    (n : Neighbour) (h : (nb.dismiss a c).lookup p = some n) :
    ∃ n0, nb.lookup p = some n0 ∧ n0.online = n.online ∧
      n0.suspected_by = n.suspected_by := by
  by_cases hk : a ∈ nb.keys
  · by_cases hpa : p = a
    · subst hpa
      refine ⟨nb.val p, ?_, ?_⟩
      · simp [lookup, hk]
      · simp [dismiss, lookup, updVal, hk] at h
        cases h
        simp
    · simp [dismiss, lookup, updVal, hk, hpa] at h ⊢
      obtain ⟨hp, rfl⟩ := h
      simp [hp]
  · simp [dismiss, hk] at h
    exact ⟨n, h, rfl, rfl⟩

theorem lookup_report (nb : Neighbourhood) (s : Finset Addr) (acc : Addr) (p : Addr) :
    (nb.report s acc).lookup p =
      if p ∈ nb.keys then some (reportOne nb.size s acc p (nb.val p)) else none := by
  by_cases hk : p ∈ nb.keys <;> simp [report, lookup, hk]

theorem reportOne_suspected_by (sz : Nat) (s : Finset Addr) (acc a : Addr)
    (n : Neighbour) :
    (reportOne sz s acc a n).suspected_by =
      (if a ∈ s then insert acc n.suspected_by else n.suspected_by.erase acc) := by
  unfold reportOne
  by_cases h : 3 ≤ sz ∧ sz / 2 < (if a ∈ s then insert acc n.suspected_by else n.suspected_by.erase acc).card <;>
    simp [h]

theorem reportOne_online_false_iff (sz : Nat) (s : Finset Addr) (acc a : Addr)
    (n : Neighbour) :
    (reportOne sz s acc a n).online = false ↔
      (3 ≤ sz ∧ sz / 2 < (reportOne sz s acc a n).suspected_by.card) := by
  rw [reportOne_suspected_by]
  unfold reportOne
  by_cases h : 3 ≤ sz ∧ sz / 2 < (if a ∈ s then insert acc n.suspected_by else n.suspected_by.erase acc).card <;>
    simp [h]

theorem size_report (nb : Neighbourhood) (s : Finset Addr) (acc : Addr) :
    (nb.report s acc).size = nb.size := rfl

end Neighbourhood

/-- C1: in every reachable neighbourhood, a peer with `online = false` owes
that flag to the most recent `report` call, at whose moment the
neighbourhood had at least 3 entries and the peer's `suspected_by` set
(unchanged since) exceeded half the then-current size; and a `report` on a
neighbourhood of fewer than 3 entries leaves every neighbour online. -/
theorem C1_online_flip_quorum :
    (∀ ops : List NOp, ∀ p : Addr, ∀ n : Neighbour,
      (runN ops).lookup p = some n → n.online = false →
      ∃ pre s acc post,
        ops = pre ++ NOp.report s acc :: post ∧
        (∀ s' a', NOp.report s' a' ∉ post) ∧
        3 ≤ (runN pre).size ∧
        ∃ n1, ((runN pre).report s acc).lookup p = some n1 ∧
          (runN pre).size / 2 < n1.suspected_by.card ∧
          n1.online = false ∧ n1.suspected_by = n.suspected_by) ∧
    (∀ nb : Neighbourhood, ∀ s : Finset Addr, ∀ acc p : Addr, ∀ n : Neighbour,
      nb.size < 3 → (nb.report s acc).lookup p = some n → n.online = true) := by
  constructor
  · intro ops
    induction ops using List.reverseRecOn with
    | nil =>
      intro p n h _
      simp [runN, Neighbourhood.new, Neighbourhood.lookup] at h
    | append_singleton l op ih =>
      intro p n h hf
      rw [runN_append] at h
      cases op with
      | register a =>
        by_cases hpa : p = a
        · subst hpa
          rw [show applyNOp (runN l) (NOp.register p) = (runN l).register p from rfl,
            Neighbourhood.lookup_register_self] at h
          cases h
          simp [Neighbour.default] at hf
        · rw [show applyNOp (runN l) (NOp.register a) = (runN l).register a from rfl,
            Neighbourhood.lookup_register_ne _ hpa] at h
          obtain ⟨pre, s, acc, post, rfl, hnr, h3, n1, hl, hc, ho, hsb⟩ := ih p n h hf
          refine ⟨pre, s, acc, post ++ [NOp.register a], by simp, ?_, h3, n1, hl, hc, ho, hsb⟩
          intro s' a'
          simp only [List.mem_append, List.mem_singleton]
          rintro (hmem | hmem)
          · exact hnr s' a' hmem
          · cases hmem
      | accuse a c =>
        obtain ⟨n0, h0, hon, hsb0⟩ :=
          Neighbourhood.lookup_accuse (runN l) a c p n h
        obtain ⟨pre, s, acc, post, rfl, hnr, h3, n1, hl, hc, ho, hsb⟩ :=
          ih p n0 h0 (hon.trans hf)
        refine ⟨pre, s, acc, post ++ [NOp.accuse a c], by simp, ?_, h3, n1, hl, hc, ho,
          hsb.trans hsb0⟩
        intro s' a'
        simp only [List.mem_append, List.mem_singleton]
        rintro (hmem | hmem)
        · exact hnr s' a' hmem
        · cases hmem
      | dismiss a c =>
        obtain ⟨n0, h0, hon, hsb0⟩ :=
          Neighbourhood.lookup_dismiss (runN l) a c p n h
        obtain ⟨pre, s, acc, post, rfl, hnr, h3, n1, hl, hc, ho, hsb⟩ :=
          ih p n0 h0 (hon.trans hf)
        refine ⟨pre, s, acc, post ++ [NOp.dismiss a c], by simp, ?_, h3, n1, hl, hc, ho,
          hsb.trans hsb0⟩
        intro s' a'
        simp only [List.mem_append, List.mem_singleton]
        rintro (hmem | hmem)
        · exact hnr s' a' hmem
        · cases hmem
      | report s acc =>
        have hrep : applyNOp (runN l) (NOp.report s acc) = (runN l).report s acc := rfl
        rw [hrep, Neighbourhood.lookup_report] at h
        by_cases hk : p ∈ (runN l).keys
        · simp only [hk, if_pos] at h
          cases h
          have hguard := (Neighbourhood.reportOne_online_false_iff
            (runN l).size s acc p ((runN l).val p)).mp hf
          refine ⟨l, s, acc, [], by simp, by simp, hguard.1, ?_⟩
          refine ⟨Neighbourhood.reportOne (runN l).size s acc p ((runN l).val p), ?_,
            hguard.2, hf, rfl⟩
          rw [Neighbourhood.lookup_report]
          simp [hk]
        · simp [hk] at h
  · intro nb s acc p n hlt h
    rw [Neighbourhood.lookup_report] at h
    by_cases hk : p ∈ nb.keys
    · simp only [hk, if_pos] at h
      cases h
      unfold Neighbourhood.reportOne
      have hng : ¬ (3 ≤ nb.size ∧ nb.size / 2 <
          (if p ∈ s then insert acc (nb.val p).suspected_by
           else (nb.val p).suspected_by.erase acc).card) := by
        rintro ⟨h3, -⟩
        omega
      simp [hng]
    · simp [hk] at h

/-- Witness for C1 at the concrete trace `c1ops` (peer 1 ends offline) and
at a concrete two-entry neighbourhood for the size guard. -/
theorem C1_online_flip_quorum_witness :
    (∃ pre s acc post,
      c1ops = pre ++ NOp.report s acc :: post ∧
      (∀ s' a', NOp.report s' a' ∉ post) ∧
      3 ≤ (runN pre).size ∧
      ∃ n1, ((runN pre).report s acc).lookup 1 = some n1 ∧
        (runN pre).size / 2 < n1.suspected_by.card ∧
        n1.online = false ∧
        n1.suspected_by = ((runN c1ops).val 1).suspected_by) ∧
    ((((runN [NOp.register 1, NOp.register 2]).report {1} 2).val 1).online = true) :=
  ⟨C1_online_flip_quorum.1 c1ops 1 ((runN c1ops).val 1) rfl rfl,
   C1_online_flip_quorum.2 (runN [NOp.register 1, NOp.register 2]) {1} 2 1
     (((runN [NOp.register 1, NOp.register 2]).report {1} 2).val 1)
     (by decide) rfl⟩

namespace Neighbourhood

theorem keys_accuse (nb : Neighbourhood) (a : Addr) (c : Charge) :
    (nb.accuse a c).keys = nb.keys := by
  unfold accuse
  split <;> rfl

theorem val_accuse_self (nb : Neighbourhood) (a : Addr) (c : Charge)
    (hk : a ∈ nb.keys) :
    (nb.accuse a c).val a = { nb.val a with suspicion := (nb.val a).suspicion.accuse c } := by
  simp [accuse, updVal, hk]

theorem val_accuse_of_ne (nb : Neighbourhood) {a p : Addr} (c : Charge)
    (h : p ≠ a) : (nb.accuse a c).val p = nb.val p := by
  unfold accuse
  split <;> simp [updVal, h]

theorem accuse_of_not_mem (nb : Neighbourhood) {a : Addr} (c : Charge)
    (h : a ∉ nb.keys) : nb.accuse a c = nb := by
  simp [accuse, h]

end Neighbourhood

theorem keys_foldl_accuse_reply (l : List (Nat × Addr × Nat)) :
    ∀ nb : Neighbourhood,
      (l.foldl (fun nbh e => nbh.accuse e.2.1 Charge.reply) nb).keys = nb.keys := by
  induction l with
  | nil => intro nb; rfl
  | cons e rest ih =>
    intro nb
    simpa [List.foldl] using (ih (nb.accuse e.2.1 Charge.reply)).trans
      (Neighbourhood.keys_accuse nb e.2.1 Charge.reply)

theorem val_foldl_accuse_reply (l : List (Nat × Addr × Nat)) :
    ∀ nb : Neighbourhood, ∀ p : Addr, p ∈ nb.keys →
      (l.foldl (fun nbh e => nbh.accuse e.2.1 Charge.reply) nb).val p =
        { nb.val p with suspicion :=
            { (nb.val p).suspicion with reply :=
                (Nat.iterate u8succ (l.countP (fun e => decide (e.2.1 = p)))
                  ((nb.val p).suspicion.reply)) } } := by
  induction l with
  | nil =>
    intro nb p _
    simp [List.foldl, List.countP_nil, Function.iterate_zero_apply]
  | cons e rest ih =>
    intro nb p hp
    have hkeys : p ∈ (nb.accuse e.2.1 Charge.reply).keys := by
      rw [Neighbourhood.keys_accuse]; exact hp
    by_cases he : e.2.1 = p
    · subst he
      have hv := Neighbourhood.val_accuse_self nb e.2.1 Charge.reply hp
      have hih := ih (nb.accuse e.2.1 Charge.reply) e.2.1 hkeys
      rw [List.foldl_cons, hih, hv]
      have hc : List.countP (fun x => decide (x.2.1 = e.2.1)) (e :: rest) =
          List.countP (fun x => decide (x.2.1 = e.2.1)) rest + 1 := by
        simp [List.countP_cons]
      rw [hc, Function.iterate_succ_apply]
      rfl
    · have hv := Neighbourhood.val_accuse_of_ne nb Charge.reply
        (fun hh => he hh.symm)
      have hih := ih (nb.accuse e.2.1 Charge.reply) p hkeys
      rw [List.foldl_cons, hih, hv]
      have hc : List.countP (fun x => decide (x.2.1 = p)) (e :: rest) =
          List.countP (fun x => decide (x.2.1 = p)) rest := by
        simp [List.countP_cons, he]
      rw [hc]

theorem val_foldl_accuse_reply_not_mem (l : List (Nat × Addr × Nat)) :
    ∀ nb : Neighbourhood, ∀ p : Addr, p ∉ nb.keys →
      (l.foldl (fun nbh e => nbh.accuse e.2.1 Charge.reply) nb).val p = nb.val p := by
  induction l with
  | nil => intro nb p _; rfl
  | cons e rest ih =>
    intro nb p hp
    have hkeys : p ∉ (nb.accuse e.2.1 Charge.reply).keys := by
      rw [Neighbourhood.keys_accuse]; exact hp
    by_cases he : e.2.1 = p
    · subst he
      rw [List.foldl_cons, ih _ _ hkeys, Neighbourhood.accuse_of_not_mem nb Charge.reply hp]
    · rw [List.foldl_cons, ih _ _ hkeys,
        Neighbourhood.val_accuse_of_ne nb Charge.reply (fun hh => he hh.symm)]

/-- C6: `CheckReplies` removes exactly the pending entries older than
`STALE_TIMEOUT`, keeps every younger entry, charges each stale entry's
recorded destination with one `Reply` accusation (a no-op for unregistered
destinations), touches nothing else, and emits no messages. -/
theorem C6_check_replies (st : NodeState) (now : Nat) :
    (st.handle_trigger now Trigger.checkReplies).2 = [] ∧
    (st.handle_trigger now Trigger.checkReplies).1.awaiting_reply =
      st.awaiting_reply.filter (fun e => decide (¬ STALE_TIMEOUT < now - e.2.2)) ∧
    (∀ e ∈ st.awaiting_reply, ¬ STALE_TIMEOUT < now - e.2.2 →
      e ∈ (st.handle_trigger now Trigger.checkReplies).1.awaiting_reply) ∧
    (∀ e ∈ st.awaiting_reply, STALE_TIMEOUT < now - e.2.2 →
      e ∉ (st.handle_trigger now Trigger.checkReplies).1.awaiting_reply) ∧
    (st.handle_trigger now Trigger.checkReplies).1.neighbourhood.keys =
      st.neighbourhood.keys ∧
    (∀ p ∈ st.neighbourhood.keys,
      (st.handle_trigger now Trigger.checkReplies).1.neighbourhood.val p =
        { st.neighbourhood.val p with suspicion :=
            { (st.neighbourhood.val p).suspicion with reply :=
                (Nat.iterate u8succ ((st.awaiting_reply.filter
                    (fun e => decide (STALE_TIMEOUT < now - e.2.2))).countP
                    (fun e => decide (e.2.1 = p)))
                  ((st.neighbourhood.val p).suspicion.reply)) } }) ∧
    (∀ p, p ∉ st.neighbourhood.keys →
      (st.handle_trigger now Trigger.checkReplies).1.neighbourhood.val p =
        st.neighbourhood.val p) ∧
    (st.handle_trigger now Trigger.checkReplies).1.cnt = st.cnt ∧
    (st.handle_trigger now Trigger.checkReplies).1.src = st.src := by
  refine ⟨rfl, rfl, ?_, ?_, ?_, ?_, ?_, rfl, rfl⟩
  · intro e he hyoung
    show e ∈ st.awaiting_reply.filter (fun e => decide (¬ STALE_TIMEOUT < now - e.2.2))
    rw [List.mem_filter]
    exact ⟨he, by simpa using hyoung⟩
  · intro e _ hstale hmem
    rw [show (st.handle_trigger now Trigger.checkReplies).1.awaiting_reply =
        st.awaiting_reply.filter (fun e => decide (¬ STALE_TIMEOUT < now - e.2.2)) from rfl,
      List.mem_filter] at hmem
    exact absurd hstale (of_decide_eq_true hmem.2)
  · exact keys_foldl_accuse_reply _ st.neighbourhood
  · intro p hp
    exact val_foldl_accuse_reply _ st.neighbourhood p hp
  · intro p hp
    exact val_foldl_accuse_reply_not_mem _ st.neighbourhood p hp

/-- Witness for C6 at `c6st` and instant 20: entries 1 and 3 are stale and
removed, entry 2 stays, and peer 5 receives one `Reply` charge. -/
theorem C6_check_replies_witness :
    ((2, (5, 100)) ∈ (c6st.handle_trigger 20 Trigger.checkReplies).1.awaiting_reply) ∧
    ((1, (5, 0)) ∉ (c6st.handle_trigger 20 Trigger.checkReplies).1.awaiting_reply) ∧
    ((c6st.handle_trigger 20 Trigger.checkReplies).1.neighbourhood.val 5 =
      { c6st.neighbourhood.val 5 with suspicion :=
          { (c6st.neighbourhood.val 5).suspicion with reply :=
              (Nat.iterate u8succ ((c6st.awaiting_reply.filter
                  (fun e => decide (STALE_TIMEOUT < 20 - e.2.2))).countP
                  (fun e => decide (e.2.1 = 5)))
                ((c6st.neighbourhood.val 5).suspicion.reply)) } }) :=
  ⟨(C6_check_replies c6st 20).2.2.1 (2, (5, 100)) (by decide) (by decide),
   (C6_check_replies c6st 20).2.2.2.1 (1, (5, 0)) (by decide) (by decide),
   (C6_check_replies c6st 20).2.2.2.2.2.1 5 (by decide)⟩

theorem emitIter_cnt (st : NodeState) (now : Nat) (h : st.cnt < 4294967296) :
    ∀ n, (emitIter st now n).cnt = (st.cnt + n) % 4294967296 := by
  intro n
  induction n with
  | zero => simpa [emitIter] using (Nat.mod_eq_of_lt h).symm
  | succ k ih =>
    show ((emitIter st now k).message now 0 none (Payload.gossipRandom "x")).1.cnt = _
    rw [show ((emitIter st now k).message now 0 none (Payload.gossipRandom "x")).1.cnt =
        ((emitIter st now k).cnt + 1) % 4294967296 from rfl, ih, Nat.mod_add_mod]
    omega

theorem nthMsg_id (st : NodeState) (now : Nat) (h : st.cnt < 4294967296) (n : Nat) :
    (nthMsg st now n).id = (st.cnt + n + 1) % 4294967296 := by
  show ((emitIter st now n).cnt + 1) % 4294967296 = _
  rw [emitIter_cnt st now h n, Nat.mod_add_mod]

/-- Counterexample to C3: under the `u32` arithmetic of `cnt`, the
`2^32`-th message produced by the factory of a fresh node carries id 0
(so ids are not all non-zero), and the `2^32 + 1`-th repeats the first
message's id 1 (so ids are neither strictly increasing nor unique). -/
theorem C3_counterexample :
    (nthMsg (NodeState.new 0) 0 0).id = 1 ∧
    (nthMsg (NodeState.new 0) 0 (4294967296 - 1)).id = 0 ∧
    (nthMsg (NodeState.new 0) 0 4294967296).id = 1 := by
  refine ⟨rfl, ?_, ?_⟩
  · rw [nthMsg_id (NodeState.new 0) 0 (by decide) (4294967296 - 1)]
    show (0 + (4294967296 - 1) + 1) % 4294967296 = 0
    omega
  · rw [nthMsg_id (NodeState.new 0) 0 (by decide) 4294967296]
    show (0 + 4294967296 + 1) % 4294967296 = 1
    omega

/-- C3 amended: for a fresh node the `n`-th factory-produced message
carries id `n`, hence among the first `2^32 - 1` messages every id is
non-zero, strictly increasing, and never repeated; the guarantee stops at
the `2^32`-th message, where the `u32` counter wraps to 0. -/
theorem C3_monotonic_id_amended (n : Nat) (h1 : 1 ≤ n) (h2 : n < 4294967296) :
    (nthMsg (NodeState.new 0) 0 (n - 1)).id = n ∧
    (nthMsg (NodeState.new 0) 0 (n - 1)).id ≠ 0 ∧
    (∀ m, 1 ≤ m → m < n →
      (nthMsg (NodeState.new 0) 0 (m - 1)).id < (nthMsg (NodeState.new 0) 0 (n - 1)).id) := by
  have hid : ∀ k, 1 ≤ k → k < 4294967296 → (nthMsg (NodeState.new 0) 0 (k - 1)).id = k := by
    intro k hk1 hk2
    rw [nthMsg_id (NodeState.new 0) 0 (by decide) (k - 1)]
    show (0 + (k - 1) + 1) % 4294967296 = k
    rw [Nat.zero_add, Nat.sub_add_cancel hk1, Nat.mod_eq_of_lt hk2]
  refine ⟨hid n h1 h2, ?_, ?_⟩
  · rw [hid n h1 h2]; omega
  · intro m hm1 hm2
    rw [hid n h1 h2, hid m hm1 (hm2.trans h2)]
    exact hm2

/-- Witness for the amended C3 at the second message: its id is 2,
non-zero, and larger than the first message's id. -/
theorem C3_monotonic_id_amended_witness :
    (nthMsg (NodeState.new 0) 0 1).id = 2 ∧
    (nthMsg (NodeState.new 0) 0 1).id ≠ 0 ∧
    (nthMsg (NodeState.new 0) 0 0).id < (nthMsg (NodeState.new 0) 0 1).id :=
  ⟨(C3_monotonic_id_amended 2 (by decide) (by decide)).1,
   (C3_monotonic_id_amended 2 (by decide) (by decide)).2.1,
   (C3_monotonic_id_amended 2 (by decide) (by decide)).2.2 1 (by decide) (by decide)⟩

namespace Neighbourhood

theorem keys_dismiss (nb : Neighbourhood) (a : Addr) (c : Charge) :
    (nb.dismiss a c).keys = nb.keys := by
  unfold dismiss
  split <;> rfl

theorem val_dismiss_self (nb : Neighbourhood) (a : Addr) (c : Charge)
    (hk : a ∈ nb.keys) :
    (nb.dismiss a c).val a = { nb.val a with suspicion := (nb.val a).suspicion.object c } := by
  simp [dismiss, updVal, hk]

theorem val_dismiss_of_ne (nb : Neighbourhood) {a p : Addr} (c : Charge)
    (h : p ≠ a) : (nb.dismiss a c).val p = nb.val p := by
  unfold dismiss
  split <;> simp [updVal, h]

end Neighbourhood

theorem u8run_eq_natRun_mod (ops : List ConnOp) :
    ∀ c : Nat, ops.foldl connStepU8 (c % 256) = (ops.foldl natStep c) % 256 := by
  induction ops with
  | nil => intro c; rfl
  | cons op rest ih =>
    intro c
    cases op with
    | accuse =>
      show List.foldl connStepU8 ((c % 256 + 1) % 256) rest = _
      rw [Nat.mod_add_mod]
      exact ih (c + 1)
    | dismiss =>
      show List.foldl connStepU8 0 rest = (List.foldl natStep 0 rest) % 256
      exact ih 0

theorem clampRun_eq_min (ops : List ConnOp) :
    ∀ c : Nat, ops.foldl clampStep (min c 3) = min (ops.foldl natStep c) 3 := by
  induction ops with
  | nil => intro c; rfl
  | cons op rest ih =>
    intro c
    cases op with
    | accuse =>
      show List.foldl clampStep (min (min c 3 + 1) 3) rest = _
      rw [show min (min c 3 + 1) 3 = min (c + 1) 3 by omega]
      exact ih (c + 1)
    | dismiss =>
      show List.foldl clampStep 0 rest = min (List.foldl natStep 0 rest) 3
      exact ih 0

theorem natRun_replicate_accuse (n : Nat) :
    ∀ c : Nat, List.foldl natStep c (List.replicate n ConnOp.accuse) = c + n := by
  induction n with
  | zero => intro c; rfl
  | succ k ih =>
    intro c
    show List.foldl natStep (c + 1) (List.replicate k ConnOp.accuse) = c + (k + 1)
    rw [ih (c + 1)]
    omega

theorem connRun_val (ops : List ConnOp) :
    ∀ nb : Neighbourhood, ∀ p : Addr, p ∈ nb.keys →
      (connRun nb p ops).keys = nb.keys ∧
      (connRun nb p ops).val p =
        { nb.val p with suspicion :=
            { (nb.val p).suspicion with connection :=
                (ops.foldl connStepU8 ((nb.val p).suspicion.connection)) } } := by
  induction ops with
  | nil => intro nb p _; exact ⟨rfl, rfl⟩
  | cons op rest ih =>
    intro nb p hp
    cases op with
    | accuse =>
      have hk : p ∈ (nb.accuse p Charge.connection).keys := by
        rw [Neighbourhood.keys_accuse]; exact hp
      obtain ⟨ihk, ihv⟩ := ih (nb.accuse p Charge.connection) p hk
      constructor
      · show (connRun (nb.accuse p Charge.connection) p rest).keys = nb.keys
        rw [ihk, Neighbourhood.keys_accuse]
      · show (connRun (nb.accuse p Charge.connection) p rest).val p = _
        rw [ihv, Neighbourhood.val_accuse_self nb p Charge.connection hp]
        rfl
    | dismiss =>
      have hk : p ∈ (nb.dismiss p Charge.connection).keys := by
        rw [Neighbourhood.keys_dismiss]; exact hp
      obtain ⟨ihk, ihv⟩ := ih (nb.dismiss p Charge.connection) p hk
      constructor
      · show (connRun (nb.dismiss p Charge.connection) p rest).keys = nb.keys
        rw [ihk, Neighbourhood.keys_dismiss]
      · show (connRun (nb.dismiss p Charge.connection) p rest).val p = _
        rw [ihv, Neighbourhood.val_dismiss_self nb p Charge.connection hp]
        rfl

/-- Counterexample to C9: after 256 consecutive `accuse(Connection)`
operations on a freshly registered peer, the source's `u8` counter has
wrapped to 0 and `is_suspicious` is false, while the clamped reference
counter sits at the threshold and reports suspicious — the two are not
observationally equivalent over all operation sequences. -/
theorem C9_counterexample :
    ((connRun (Neighbourhood.new.register 5) 5
        (List.replicate 256 ConnOp.accuse)).val 5).suspicion.is_suspicious = false ∧
    decide (3 ≤ clampRun (List.replicate 256 ConnOp.accuse)) = true := by
  constructor
  · have hp : (5 : Addr) ∈ (Neighbourhood.new.register 5).keys := by decide
    obtain ⟨-, hv⟩ := connRun_val (List.replicate 256 ConnOp.accuse)
      (Neighbourhood.new.register 5) 5 hp
    rw [hv]
    have hc : ((Neighbourhood.new.register 5).val 5).suspicion.connection = 0 := rfl
    have hr : ((Neighbourhood.new.register 5).val 5).suspicion.reply = 0 := rfl
    have h0 : List.foldl connStepU8 0 (List.replicate 256 ConnOp.accuse) = 0 := by
      have hmod := u8run_eq_natRun_mod (List.replicate 256 ConnOp.accuse) 0
      rw [show (0 : Nat) % 256 = 0 from rfl] at hmod
      rw [hmod, natRun_replicate_accuse 256 0]
    simp only [Suspicion.is_suspicious, hc, hr, h0]
    rfl
  · have hcl := clampRun_eq_min (List.replicate 256 ConnOp.accuse) 0
    rw [show min (0 : Nat) 3 = 0 from rfl] at hcl
    show decide (3 ≤ clampRun (List.replicate 256 ConnOp.accuse)) = true
    unfold clampRun
    rw [hcl, natRun_replicate_accuse 256 0]
    rfl

/-- C9 amended: the source's `u8` connection counter and the clamped
reference counter agree on the `is_suspicious` verdict for every operation
sequence in which fewer than 256 accusations accumulate since the last
dismissal, i.e. as long as the `u8` counter cannot wrap around. -/
theorem C9_clamped_equiv_amended (ops : List ConnOp) (p : Addr)
    (h : natRun ops < 256) :
    ((connRun (Neighbourhood.new.register p) p ops).val p).suspicion.is_suspicious
      = decide (3 ≤ clampRun ops) := by
  have hp : p ∈ (Neighbourhood.new.register p).keys := by
    simp [Neighbourhood.new, Neighbourhood.register]
  obtain ⟨-, hv⟩ := connRun_val ops (Neighbourhood.new.register p) p hp
  rw [hv]
  have hc : ((Neighbourhood.new.register p).val p).suspicion.connection = 0 := by
    simp [Neighbourhood.new, Neighbourhood.register, updVal, Neighbour.default,
      Suspicion.default]
  have hr : ((Neighbourhood.new.register p).val p).suspicion.reply = 0 := by
    simp [Neighbourhood.new, Neighbourhood.register, updVal, Neighbour.default,
      Suspicion.default]
  have hu8 : List.foldl connStepU8 0 ops = natRun ops := by
    have hmod := u8run_eq_natRun_mod ops 0
    rw [show (0 : Nat) % 256 = 0 from rfl] at hmod
    rw [hmod]
    show natRun ops % 256 = natRun ops
    exact Nat.mod_eq_of_lt h
  have hcl : clampRun ops = min (natRun ops) 3 := by
    have hmin := clampRun_eq_min ops 0
    rw [show min (0 : Nat) 3 = 0 from rfl] at hmin
    exact hmin
  simp only [Suspicion.is_suspicious, hc, hr, hu8, hcl]
  rw [show decide (3 ≤ (0 : Nat)) = false from rfl, Bool.false_or]
  by_cases h3 : 3 ≤ natRun ops
  · have hm : min (natRun ops) 3 = 3 := by omega
    rw [hm]
    simp [h3]
  · have hm : min (natRun ops) 3 = natRun ops := by omega
    rw [hm]

/-- Witness for the amended C9 at three accusations: both counters report
suspicious. -/
theorem C9_clamped_equiv_amended_witness :
    natRun [ConnOp.accuse, ConnOp.accuse, ConnOp.accuse] < 256 ∧
    ((connRun (Neighbourhood.new.register 5) 5
        [ConnOp.accuse, ConnOp.accuse, ConnOp.accuse]).val 5).suspicion.is_suspicious
      = decide (3 ≤ clampRun [ConnOp.accuse, ConnOp.accuse, ConnOp.accuse]) :=
  ⟨by decide,
   C9_clamped_equiv_amended [ConnOp.accuse, ConnOp.accuse, ConnOp.accuse] 5 (by decide)⟩

namespace Neighbourhood

theorem mem_register_self (nb : Neighbourhood) (a : Addr) :
    a ∈ (nb.register a).keys := by
  by_cases h : a ∈ nb.keys <;> simp [register, h]

theorem val_register_self (nb : Neighbourhood) (a : Addr) :
    (nb.register a).val a = Neighbour.default := by
  simp [register, updVal]

end Neighbourhood

theorem emitToAll_map_dst (now : Nat) (p : Payload) :
    ∀ dsts : List Addr, ∀ st : NodeState,
      (emitToAll st now p dsts).2.map Message.dst = dsts := by
  intro dsts
  induction dsts with
  | nil => intro st; rfl
  | cons d rest ih =>
    intro st
    show Message.dst (st.message now d none p).2 ::
      (emitToAll (st.message now d none p).1 now p rest).2.map Message.dst = d :: rest
    rw [ih (st.message now d none p).1]
    rfl

/-- C10: nothing excludes the node's own address — a `Register(self)`
trigger, or an inbound `Register` whose `src` is the node itself, inserts
the node's own address as an ordinary online neighbour; afterwards it is
selected as a gossiper and a `GossipRandom` trigger emits a message whose
destination is the node itself. -/
theorem C10_self_address (st : NodeState) (now now2 i : Nat) (rto : Option Nat) :
    (st.handle_trigger now (Trigger.register st.src)).1.neighbourhood.is_registered st.src
      = true ∧
    (st.handle_trigger now (Trigger.register st.src)).1.neighbourhood.val st.src
      = Neighbour.default ∧
    Neighbour.default.online = true ∧
    st.src ∈ (st.handle_trigger now (Trigger.register st.src)).1.neighbourhood.select_gossipers ∧
    (∃ mm ∈ ((st.handle_trigger now (Trigger.register st.src)).1.handle_trigger
        now2 Trigger.gossipRandom).2, mm.dst = st.src) ∧
    (st.handle_message now ⟨st.src, st.src, i, rto, Payload.register⟩).1.neighbourhood.is_registered
      st.src = true ∧
    (st.handle_message now ⟨st.src, st.src, i, rto, Payload.register⟩).1.neighbourhood.val st.src
      = Neighbour.default := by
  have hnb : (st.handle_trigger now (Trigger.register st.src)).1.neighbourhood
      = st.neighbourhood.register st.src := rfl
  have hmem := Neighbourhood.mem_register_self st.neighbourhood st.src
  have hval := Neighbourhood.val_register_self st.neighbourhood st.src
  have hgoss : st.src ∈ (st.neighbourhood.register st.src).select_gossipers := by
    rw [Neighbourhood.select_gossipers, List.mem_filter]
    exact ⟨hmem, by rw [hval]; rfl⟩
  refine ⟨by simp [hnb, Neighbourhood.is_registered, hmem], by rw [hnb]; exact hval, rfl,
    by rw [hnb]; exact hgoss, ?_, ?_, ?_⟩
  · have hmap := emitToAll_map_dst now2
      (Payload.gossipRandom (gossipText (st.handle_trigger now (Trigger.register st.src)).1.src))
      (st.handle_trigger now (Trigger.register st.src)).1.neighbourhood.select_gossipers
      (st.handle_trigger now (Trigger.register st.src)).1
    have hsrc : st.src ∈ ((st.handle_trigger now (Trigger.register st.src)).1.handle_trigger
        now2 Trigger.gossipRandom).2.map Message.dst := by
      rw [show ((st.handle_trigger now (Trigger.register st.src)).1.handle_trigger
          now2 Trigger.gossipRandom).2 =
        (emitToAll (st.handle_trigger now (Trigger.register st.src)).1 now2
          (Payload.gossipRandom (gossipText (st.handle_trigger now (Trigger.register st.src)).1.src))
          (st.handle_trigger now (Trigger.register st.src)).1.neighbourhood.select_gossipers).2
        from rfl, hmap, hnb]
      exact hgoss
    obtain ⟨mm, hmm, hdst⟩ := List.mem_map.mp hsrc
    exact ⟨mm, hmm, hdst⟩
  · have hnb2 : (st.handle_message now ⟨st.src, st.src, i, rto, Payload.register⟩).1.neighbourhood
        = (st.neighbourhood.dismiss st.src Charge.connection).register st.src := rfl
    rw [hnb2]
    simp [Neighbourhood.is_registered,
      Neighbourhood.mem_register_self (st.neighbourhood.dismiss st.src Charge.connection) st.src]
  · exact Neighbourhood.val_register_self (st.neighbourhood.dismiss st.src Charge.connection) st.src

namespace Neighbourhood

theorem mem_register_iff (nb : Neighbourhood) (a p : Addr) :
    p ∈ (nb.register a).keys ↔ (p = a ∨ p ∈ nb.keys) := by
  by_cases h : a ∈ nb.keys
  · simp only [register, if_pos h]
    constructor
    · exact Or.inr
    · rintro (rfl | hp)
      · exact h
      · exact hp
  · simp only [register, if_neg h, List.mem_append, List.mem_singleton]
    exact or_comm

theorem val_register_of_ne (nb : Neighbourhood) {a p : Addr} (h : p ≠ a) :
    (nb.register a).val p = nb.val p := by
  simp [register, updVal, h]

theorem keys_register (nb : Neighbourhood) (a : Addr) (h : a ∈ nb.keys) :
    (nb.register a).keys = nb.keys := by
  simp [register, h]

end Neighbourhood

/-- C8 (amended): an inbound `Register` from `s` snapshots the key list
before inserting `s`, resets `s` to a default online neighbour, and emits
exactly one `RegisterOk` back to `s` carrying `reply_to = m.id` and the
snapshot; the joiner appears in that snapshot exactly when it was already
registered before the message (so a re-registering peer does see itself). -/
theorem C8_register_snapshot (st : NodeState) (now msrc mdst mid : Nat)
    (rto : Option Nat) :
    (st.handle_message now ⟨msrc, mdst, mid, rto, Payload.register⟩).2 =
      [⟨st.src, msrc, (st.cnt + 1) % 4294967296, some mid,
        Payload.registerOk st.neighbourhood.get_all_neighbours⟩] ∧
    (st.handle_message now ⟨msrc, mdst, mid, rto, Payload.register⟩).1.neighbourhood.val msrc
      = Neighbour.default ∧
    Neighbour.default.online = true ∧
    (st.handle_message now
        ⟨msrc, mdst, mid, rto, Payload.register⟩).1.neighbourhood.is_registered msrc = true ∧
    decide (msrc ∈ st.neighbourhood.get_all_neighbours) = st.neighbourhood.is_registered msrc := by
  have hkeys : (st.neighbourhood.dismiss msrc Charge.connection).get_all_neighbours
      = st.neighbourhood.get_all_neighbours :=
    Neighbourhood.keys_dismiss st.neighbourhood msrc Charge.connection
  refine ⟨?_, ?_, rfl, ?_, rfl⟩
  · rw [← hkeys]
    rfl
  · exact Neighbourhood.val_register_self (st.neighbourhood.dismiss msrc Charge.connection) msrc
  · show (((st.neighbourhood.dismiss msrc Charge.connection).register msrc).is_registered msrc)
      = true
    simp [Neighbourhood.is_registered,
      Neighbourhood.mem_register_self (st.neighbourhood.dismiss msrc Charge.connection) msrc]

/-- Counterexample to C8 as stated: when the joiner 5 is already registered,
the `RegisterOk` reply to its fresh `Register` carries a `known` list that
contains 5 itself. -/
theorem C8_counterexample :
    ∃ k, (c8st.handle_message 0 ⟨5, 0, 1, none, Payload.register⟩).2.map Message.payload
        = [Payload.registerOk k] ∧ (5 : Addr) ∈ k :=
  ⟨[5], rfl, by decide⟩

theorem handle_reply_nb_keys (st : NodeState) (rto : Option Nat) (src : Addr) :
    (st.handle_reply rto src).neighbourhood.keys = st.neighbourhood.keys := by
  cases rto with
  | none => rfl
  | some rid =>
    cases h : lookupAw st.awaiting_reply rid with
    | none => simp [NodeState.handle_reply, h]
    | some e =>
      obtain ⟨d, t⟩ := e
      by_cases hd : d = src <;>
        simp [NodeState.handle_reply, h, hd, Neighbourhood.keys_dismiss]

theorem handle_reply_nb_conn (st : NodeState) (rto : Option Nat) (src p : Addr) :
    ((st.handle_reply rto src).neighbourhood.val p).suspicion.connection
      = (st.neighbourhood.val p).suspicion.connection ∧
    ((st.handle_reply rto src).neighbourhood.val p).suspected_by
      = (st.neighbourhood.val p).suspected_by ∧
    ((st.handle_reply rto src).neighbourhood.val p).online
      = (st.neighbourhood.val p).online := by
  cases rto with
  | none => exact ⟨rfl, rfl, rfl⟩
  | some rid =>
    cases h : lookupAw st.awaiting_reply rid with
    | none => simp [NodeState.handle_reply, h]
    | some e =>
      obtain ⟨d, t⟩ := e
      by_cases hd : d = src
      · have hred : (st.handle_reply (some rid) src).neighbourhood =
            st.neighbourhood.dismiss src Charge.reply := by
          simp [NodeState.handle_reply, h, hd]
        rw [hred]
        by_cases hk : src ∈ st.neighbourhood.keys
        · by_cases hps : p = src
          · subst hps
            rw [Neighbourhood.val_dismiss_self st.neighbourhood p Charge.reply hk]
            exact ⟨rfl, rfl, rfl⟩
          · rw [Neighbourhood.val_dismiss_of_ne st.neighbourhood Charge.reply hps]
            exact ⟨rfl, rfl, rfl⟩
        · rw [show st.neighbourhood.dismiss src Charge.reply = st.neighbourhood from by
            simp [Neighbourhood.dismiss, hk]]
          exact ⟨rfl, rfl, rfl⟩
      · have hred : (st.handle_reply (some rid) src).neighbourhood = st.neighbourhood := by
          simp [NodeState.handle_reply, h, hd]
        rw [hred]
        exact ⟨rfl, rfl, rfl⟩

theorem emitRegisters_nb (l : List Addr) :
    ∀ st : NodeState, ∀ now : Nat, ∀ p : Addr,
      ((emitRegisters st now l).1.neighbourhood.val p
        = if p ∈ l then Neighbour.default else st.neighbourhood.val p) ∧
      (p ∈ (emitRegisters st now l).1.neighbourhood.keys ↔
        (p ∈ l ∨ p ∈ st.neighbourhood.keys)) := by
  induction l with
  | nil =>
    intro st now p
    simp [emitRegisters]
  | cons a rest ih =>
    intro st now p
    have hstep : (emitRegisters st now (a :: rest)).1 =
        (emitRegisters ({ st with neighbourhood := st.neighbourhood.register a }.message
          now a none Payload.register).1 now rest).1 := rfl
    have hnb : ({ st with neighbourhood := st.neighbourhood.register a }.message
        now a none Payload.register).1.neighbourhood = st.neighbourhood.register a := rfl
    obtain ⟨ihv, ihm⟩ := ih ({ st with neighbourhood := st.neighbourhood.register a }.message
      now a none Payload.register).1 now p
    rw [hnb] at ihv ihm
    constructor
    · rw [hstep, ihv]
      by_cases hr : p ∈ rest
      · simp [hr]
      · by_cases hpa : p = a
        · subst hpa
          simp [hr, Neighbourhood.val_register_self]
        · rw [Neighbourhood.val_register_of_ne st.neighbourhood hpa]
          simp [hr, hpa]
    · rw [hstep, ihm, Neighbourhood.mem_register_iff]
      constructor
      · rintro (hr | hpa | hk)
        · exact Or.inl (List.mem_cons_of_mem a hr)
        · exact Or.inl (by rw [hpa]; exact List.mem_cons_self a rest)
        · exact Or.inr hk
      · rintro (hr | hk)
        · rcases List.mem_cons.mp hr with rfl | hr
          · exact Or.inr (Or.inl rfl)
          · exact Or.inl hr
        · exact Or.inr (Or.inr hk)

/-- C7 amended: processing any inbound message first clears the sender's
`Connection` counter, and for every payload except `GossipSuspect` the
counter is 0 afterwards whenever the sender has an entry (a sender that
never becomes registered keeps its untracked record unchanged).  For a
`GossipSuspect` payload the embedded `report` can immediately re-set the
counter to 3 when the sender itself is majority-suspected; otherwise it is
0 as well. -/
theorem C7_connection_cleared (st : NodeState) (now msrc mdst mid : Nat)
    (rto : Option Nat) (known : List Addr) (txt : String) (sus : Finset Addr) :
    ((st.handle_message now ⟨msrc, mdst, mid, rto, Payload.register⟩).1.neighbourhood.val
        msrc).suspicion.connection = 0 ∧
    (((st.handle_message now
          ⟨msrc, mdst, mid, rto, Payload.registerOk known⟩).1.neighbourhood.val
        msrc).suspicion.connection =
      if (st.handle_message now
            ⟨msrc, mdst, mid, rto, Payload.registerOk known⟩).1.neighbourhood.is_registered
          msrc = true then 0
      else (st.neighbourhood.val msrc).suspicion.connection) ∧
    (((st.handle_message now
          ⟨msrc, mdst, mid, rto, Payload.gossipRandom txt⟩).1.neighbourhood.val
        msrc).suspicion.connection =
      if st.neighbourhood.is_registered msrc = true then 0
      else (st.neighbourhood.val msrc).suspicion.connection) ∧
    (((st.handle_message now
          ⟨msrc, mdst, mid, rto, Payload.gossipRandomOk⟩).1.neighbourhood.val
        msrc).suspicion.connection =
      if st.neighbourhood.is_registered msrc = true then 0
      else (st.neighbourhood.val msrc).suspicion.connection) ∧
    (((st.handle_message now
          ⟨msrc, mdst, mid, rto, Payload.gossipSuspectOk⟩).1.neighbourhood.val
        msrc).suspicion.connection =
      if st.neighbourhood.is_registered msrc = true then 0
      else (st.neighbourhood.val msrc).suspicion.connection) ∧
    (((st.handle_message now
          ⟨msrc, mdst, mid, rto, Payload.gossipSuspect sus⟩).1.neighbourhood.val
        msrc).suspicion.connection =
      if st.neighbourhood.is_registered msrc = true then
        (if 3 ≤ st.neighbourhood.size ∧ st.neighbourhood.size / 2 <
            (if msrc ∈ sus then insert msrc (st.neighbourhood.val msrc).suspected_by
             else (st.neighbourhood.val msrc).suspected_by.erase msrc).card
         then 3 else 0)
      else (st.neighbourhood.val msrc).suspicion.connection) := by
  have hdisv : ((st.neighbourhood.dismiss msrc Charge.connection).val msrc).suspicion.connection
      = if msrc ∈ st.neighbourhood.keys then 0
        else (st.neighbourhood.val msrc).suspicion.connection := by
    by_cases hk : msrc ∈ st.neighbourhood.keys
    · rw [Neighbourhood.val_dismiss_self st.neighbourhood msrc Charge.connection hk]
      simp [hk, Suspicion.object]
    · rw [show st.neighbourhood.dismiss msrc Charge.connection = st.neighbourhood from by
        simp [Neighbourhood.dismiss, hk]]
      simp [hk]
  refine ⟨?_, ?_, ?_, ?_, ?_, ?_⟩
  · rw [show (st.handle_message now ⟨msrc, mdst, mid, rto, Payload.register⟩).1.neighbourhood
        = (st.neighbourhood.dismiss msrc Charge.connection).register msrc from rfl,
      Neighbourhood.val_register_self]
    rfl
  · set st0 : NodeState :=
      { st with neighbourhood := st.neighbourhood.dismiss msrc Charge.connection } with hst0
    set st1 : NodeState := st0.handle_reply rto msrc with hst1
    set l : List Addr :=
      known.filter (fun n => !(st1.neighbourhood.is_registered n)) with hl
    have hred : (st.handle_message now
        ⟨msrc, mdst, mid, rto, Payload.registerOk known⟩).1 = (emitRegisters st1 now l).1 := rfl
    obtain ⟨hv, hm⟩ := emitRegisters_nb l st1 now msrc
    have hkeys1 : st1.neighbourhood.keys = st.neighbourhood.keys := by
      rw [hst1, handle_reply_nb_keys]
      exact Neighbourhood.keys_dismiss st.neighbourhood msrc Charge.connection
    have hconn1 : (st1.neighbourhood.val msrc).suspicion.connection
        = if msrc ∈ st.neighbourhood.keys then 0
          else (st.neighbourhood.val msrc).suspicion.connection := by
      rw [hst1, (handle_reply_nb_conn st0 rto msrc msrc).1]
      exact hdisv
    rw [hred, hv]
    by_cases hml : msrc ∈ l
    · have hreg : (emitRegisters st1 now l).1.neighbourhood.is_registered msrc = true := by
        simp [Neighbourhood.is_registered, hm, hml]
      rw [hreg]
      simp [hml, Neighbour.default, Suspicion.default]
    · have hreg : (emitRegisters st1 now l).1.neighbourhood.is_registered msrc
          = st.neighbourhood.is_registered msrc := by
        simp only [Neighbourhood.is_registered]
        by_cases hk : msrc ∈ st.neighbourhood.keys
        · simp [hm, hk, hkeys1]
        · simp [hm, hml, hk, hkeys1]
      rw [hreg]
      simp only [if_neg hml]
      rw [hconn1]
      by_cases hk : msrc ∈ st.neighbourhood.keys
      · simp [Neighbourhood.is_registered, hk]
      · simp [Neighbourhood.is_registered, hk]
  · rw [show (st.handle_message now
        ⟨msrc, mdst, mid, rto, Payload.gossipRandom txt⟩).1.neighbourhood
        = st.neighbourhood.dismiss msrc Charge.connection from rfl, hdisv]
    by_cases hk : msrc ∈ st.neighbourhood.keys <;>
      simp [Neighbourhood.is_registered, hk]
  · rw [show (st.handle_message now
        ⟨msrc, mdst, mid, rto, Payload.gossipRandomOk⟩).1.neighbourhood
        = ({ st with neighbourhood := st.neighbourhood.dismiss msrc Charge.connection
            }.handle_reply rto msrc).neighbourhood from rfl,
      (handle_reply_nb_conn _ rto msrc msrc).1]
    rw [show ({ st with neighbourhood := st.neighbourhood.dismiss msrc Charge.connection
        } : NodeState).neighbourhood = st.neighbourhood.dismiss msrc Charge.connection from rfl,
      hdisv]
    by_cases hk : msrc ∈ st.neighbourhood.keys <;>
      simp [Neighbourhood.is_registered, hk]
  · rw [show (st.handle_message now
        ⟨msrc, mdst, mid, rto, Payload.gossipSuspectOk⟩).1.neighbourhood
        = ({ st with neighbourhood := st.neighbourhood.dismiss msrc Charge.connection
            }.handle_reply rto msrc).neighbourhood from rfl,
      (handle_reply_nb_conn _ rto msrc msrc).1]
    rw [show ({ st with neighbourhood := st.neighbourhood.dismiss msrc Charge.connection
        } : NodeState).neighbourhood = st.neighbourhood.dismiss msrc Charge.connection from rfl,
      hdisv]
    by_cases hk : msrc ∈ st.neighbourhood.keys <;>
      simp [Neighbourhood.is_registered, hk]
  · rw [show (st.handle_message now
        ⟨msrc, mdst, mid, rto, Payload.gossipSuspect sus⟩).1.neighbourhood
        = (st.neighbourhood.dismiss msrc Charge.connection).report sus msrc from rfl]
    by_cases hk : msrc ∈ st.neighbourhood.keys
    · have hk1 : msrc ∈ (st.neighbourhood.dismiss msrc Charge.connection).keys := by
        rw [Neighbourhood.keys_dismiss]; exact hk
      have hrep : ((st.neighbourhood.dismiss msrc Charge.connection).report sus msrc).val msrc
          = Neighbourhood.reportOne (st.neighbourhood.dismiss msrc Charge.connection).size
              sus msrc msrc ((st.neighbourhood.dismiss msrc Charge.connection).val msrc) := by
        simp [Neighbourhood.report, hk1]
      rw [hrep]
      have hsz : (st.neighbourhood.dismiss msrc Charge.connection).size
          = st.neighbourhood.size := by
        simp [Neighbourhood.size, Neighbourhood.keys_dismiss]
      have hvd := Neighbourhood.val_dismiss_self st.neighbourhood msrc Charge.connection hk
      rw [Neighbourhood.reportOne, hsz, hvd]
      have hsb : ({ st.neighbourhood.val msrc with
          suspicion := (st.neighbourhood.val msrc).suspicion.object Charge.connection
          } : Neighbour).suspected_by = (st.neighbourhood.val msrc).suspected_by := rfl
      simp only [hsb, Neighbourhood.is_registered, hk, decide_eq_true_eq]
      by_cases hg : 3 ≤ st.neighbourhood.size ∧ st.neighbourhood.size / 2 <
          (if msrc ∈ sus then insert msrc (st.neighbourhood.val msrc).suspected_by
           else (st.neighbourhood.val msrc).suspected_by.erase msrc).card
      · simp [hg, Suspicion.jury_ruling]
      · simp [hg, Suspicion.object]
    · have hk1 : msrc ∉ (st.neighbourhood.dismiss msrc Charge.connection).keys := by
        rw [Neighbourhood.keys_dismiss]; exact hk
      have hrep : ((st.neighbourhood.dismiss msrc Charge.connection).report sus msrc).val msrc
          = (st.neighbourhood.dismiss msrc Charge.connection).val msrc := by
        simp [Neighbourhood.report, hk1]
      rw [hrep, show st.neighbourhood.dismiss msrc Charge.connection = st.neighbourhood from by
        simp [Neighbourhood.dismiss, hk]]
      simp [Neighbourhood.is_registered, hk]

/-- Counterexample to C7 as stated: peer 1 sends a `GossipSuspect` message
(with an empty suspect list); after the step its `Connection` counter is 3,
not 0 — the `report` inside the handler re-convicts the majority-suspected
sender immediately after the unconditional dismissal. -/
theorem C7_counterexample :
    ((c7st.handle_message 0 ⟨1, 0, 4, none, Payload.gossipSuspect ∅⟩).1.neighbourhood.val
        1).suspicion.connection = 3 ∧
    ¬ ((c7st.handle_message 0 ⟨1, 0, 4, none, Payload.gossipSuspect ∅⟩).1.neighbourhood.val
        1).suspicion.connection = 0 := by
  constructor
  · rfl
  · intro h
    exact absurd (rfl.trans h) (by decide)

/-- C5 amended: apart from the unconditional `dismiss(src, Connection)`
performed on every inbound message, a reply with absent or unknown
`reply_to` changes nothing; a `reply_to` matching a pending entry always
removes that entry — even when the recorded destination differs from the
actual sender — and `dismiss(src, Reply)` happens exactly when the
recorded destination equals the sender. -/
theorem C5_reply_handling (st : NodeState) (now msrc mdst mid : Nat) (rto : Option Nat) :
    (st.handle_message now ⟨msrc, mdst, mid, rto, Payload.gossipRandomOk⟩ =
      (({ st with neighbourhood := st.neighbourhood.dismiss msrc Charge.connection
         } : NodeState).handle_reply rto msrc, [])) ∧
    (st.handle_message now ⟨msrc, mdst, mid, rto, Payload.gossipSuspectOk⟩ =
      (({ st with neighbourhood := st.neighbourhood.dismiss msrc Charge.connection
         } : NodeState).handle_reply rto msrc, [])) ∧
    (∀ s : NodeState, ∀ a : Addr, s.handle_reply none a = s) ∧
    (∀ s : NodeState, ∀ rid : Nat, ∀ a : Addr,
      lookupAw s.awaiting_reply rid = none → s.handle_reply (some rid) a = s) ∧
    (∀ s : NodeState, ∀ rid : Nat, ∀ a d t,
      lookupAw s.awaiting_reply rid = some (d, t) →
      (s.handle_reply (some rid) a).awaiting_reply = removeAw s.awaiting_reply rid ∧
      (s.handle_reply (some rid) a).neighbourhood =
        (if d = a then s.neighbourhood.dismiss a Charge.reply else s.neighbourhood) ∧
      (s.handle_reply (some rid) a).cnt = s.cnt ∧
      (s.handle_reply (some rid) a).src = s.src) := by
  refine ⟨rfl, rfl, fun s a => rfl, ?_, ?_⟩
  · intro s rid a h
    simp [NodeState.handle_reply, h]
  · intro s rid a d t h
    by_cases hd : d = a
    · have hred : s.handle_reply (some rid) a =
          { s with awaiting_reply := removeAw s.awaiting_reply rid,
                   neighbourhood := s.neighbourhood.dismiss a Charge.reply } := by
        simp [NodeState.handle_reply, h, hd]
      rw [hred]
      exact ⟨rfl, by rw [if_pos hd], rfl, rfl⟩
    · have hred : s.handle_reply (some rid) a =
          { s with awaiting_reply := removeAw s.awaiting_reply rid } := by
        simp [NodeState.handle_reply, h, hd]
      rw [hred]
      exact ⟨rfl, by rw [if_neg hd], rfl, rfl⟩

/-- Counterexample to C5 as stated: processing a reply from peer 7 with
absent `reply_to` still zeroes 7's `Connection` counter (the suspicion
state is mutated), and a reply whose `reply_to` matches a pending entry
recorded for the different destination 8 still removes that entry. -/
theorem C5_counterexample :
    ((c5st.handle_message 0 ⟨7, 0, 3, none, Payload.gossipRandomOk⟩).1.neighbourhood.val
        7).suspicion.connection = 0 ∧
    (c5st.neighbourhood.val 7).suspicion.connection = 1 ∧
    (c5st.handle_message 0 ⟨7, 0, 3, some 5, Payload.gossipRandomOk⟩).1.awaiting_reply = [] ∧
    lookupAw c5st.awaiting_reply 5 = some (8, 0) ∧
    (8 : Addr) ≠ 7 := by
  refine ⟨rfl, rfl, rfl, rfl, by decide⟩

/-- Witness for C5 at `c5st`: the three `handle_reply` cases at concrete
inputs (absent id, unknown id 9, and known id 5 from the matching sender 7
and from the mismatched sender 6). -/
theorem C5_reply_handling_witness :
    (c5st.handle_reply none 7 = c5st) ∧
    (c5st.handle_reply (some 9) 7 = c5st) ∧
    ((c5st.handle_reply (some 5) 8).awaiting_reply = removeAw c5st.awaiting_reply 5 ∧
      (c5st.handle_reply (some 5) 8).neighbourhood =
        (if (8 : Addr) = 8 then c5st.neighbourhood.dismiss 8 Charge.reply
         else c5st.neighbourhood)) ∧
    ((c5st.handle_reply (some 5) 6).awaiting_reply = removeAw c5st.awaiting_reply 5 ∧
      (c5st.handle_reply (some 5) 6).neighbourhood =
        (if (8 : Addr) = 6 then c5st.neighbourhood.dismiss 6 Charge.reply
         else c5st.neighbourhood)) :=
  ⟨(C5_reply_handling c5st 0 0 0 0 none).2.2.1 c5st 7,
   (C5_reply_handling c5st 0 0 0 0 none).2.2.2.1 c5st 9 7 rfl,
   ⟨((C5_reply_handling c5st 0 0 0 0 none).2.2.2.2 c5st 5 8 8 0 rfl).1,
    ((C5_reply_handling c5st 0 0 0 0 none).2.2.2.2 c5st 5 8 8 0 rfl).2.1⟩,
   ⟨((C5_reply_handling c5st 0 0 0 0 none).2.2.2.2 c5st 5 6 8 0 rfl).1,
    ((C5_reply_handling c5st 0 0 0 0 none).2.2.2.2 c5st 5 6 8 0 rfl).2.1⟩⟩

theorem emitRegisters_msgs (l : List Addr) :
    ∀ st : NodeState, ∀ now : Nat,
      ((emitRegisters st now l).2.map Message.dst = l) ∧
      (∀ mm ∈ (emitRegisters st now l).2,
        mm.payload = Payload.register ∧ mm.reply_to = none) := by
  induction l with
  | nil => intro st now; exact ⟨rfl, fun mm h => absurd h (List.not_mem_nil mm)⟩
  | cons a rest ih =>
    intro st now
    obtain ⟨ihd, ihp⟩ := ih ({ st with neighbourhood := st.neighbourhood.register a }.message
      now a none Payload.register).1 now
    constructor
    · show a :: (emitRegisters _ now rest).2.map Message.dst = a :: rest
      rw [ihd]
    · intro mm hmm
      rcases List.mem_cons.mp hmm with rfl | hmm
      · exact ⟨rfl, rfl⟩
      · exact ihp mm hmm

/-- C2 amended: on `RegisterOk { known }` the node first handles the reply,
filters `known` once against the registration state at that moment, and
then registers each surviving occurrence and emits one fresh `Register`
(no `reply_to`) per occurrence; addresses registered at that moment receive
nothing, and when `known` is duplicate-free each new address receives
exactly one `Register` — but the gate is a pre-batch snapshot, so duplicate
occurrences in `known` each emit, including to an address registered
earlier in the same batch. -/
theorem C2_transitive_discovery (st : NodeState) (now msrc mdst mid : Nat)
    (rto : Option Nat) (known : List Addr) :
    ((st.handle_message now ⟨msrc, mdst, mid, rto, Payload.registerOk known⟩).2.map Message.dst
      = known.filter (fun a => !((replyHandled st msrc rto).neighbourhood.is_registered a))) ∧
    (∀ mm ∈ (st.handle_message now ⟨msrc, mdst, mid, rto, Payload.registerOk known⟩).2,
      mm.payload = Payload.register ∧ mm.reply_to = none) ∧
    (∀ a ∈ known.filter (fun a => !((replyHandled st msrc rto).neighbourhood.is_registered a)),
      (st.handle_message now
        ⟨msrc, mdst, mid, rto, Payload.registerOk known⟩).1.neighbourhood.is_registered a
        = true) ∧
    (∀ a : Addr, (replyHandled st msrc rto).neighbourhood.is_registered a = true →
      ((st.handle_message now ⟨msrc, mdst, mid, rto, Payload.registerOk known⟩).2.map
        Message.dst).count a = 0) ∧
    (known.Nodup →
      ∀ a ∈ known.filter (fun a => !((replyHandled st msrc rto).neighbourhood.is_registered a)),
      ((st.handle_message now ⟨msrc, mdst, mid, rto, Payload.registerOk known⟩).2.map
        Message.dst).count a = 1) := by
  have hred : st.handle_message now ⟨msrc, mdst, mid, rto, Payload.registerOk known⟩
      = emitRegisters (replyHandled st msrc rto) now
        (known.filter (fun a => !((replyHandled st msrc rto).neighbourhood.is_registered a)))
      := rfl
  obtain ⟨hd, hp⟩ := emitRegisters_msgs
    (known.filter (fun a => !((replyHandled st msrc rto).neighbourhood.is_registered a)))
    (replyHandled st msrc rto) now
  refine ⟨by rw [hred, hd], by rw [hred]; exact hp, ?_, ?_, ?_⟩
  · intro a ha
    obtain ⟨-, hm⟩ := emitRegisters_nb
      (known.filter (fun a => !((replyHandled st msrc rto).neighbourhood.is_registered a)))
      (replyHandled st msrc rto) now a
    rw [hred]
    simp only [Neighbourhood.is_registered, decide_eq_true_eq]
    exact hm.mpr (Or.inl ha)
  · intro a hreg
    rw [hred, hd, List.count_eq_zero]
    intro hal
    have h2 := (List.mem_filter.mp hal).2
    rw [hreg] at h2
    exact absurd h2 (by decide)
  · intro hnd a ha
    rw [hred, hd]
    exact List.count_eq_one_of_mem (hnd.filter _) ha

/-- Counterexample to C2 as stated: a `RegisterOk` whose `known` list holds
the unregistered address 9 twice makes the node emit two `Register`
messages to 9 — the second one to an address that is registered by the
time it is emitted, because the `is_registered` gate is only a pre-batch
snapshot. -/
theorem C2_counterexample :
    ((NodeState.new 0).handle_message 0 ⟨5, 0, 1, none,
        Payload.registerOk [9, 9]⟩).2.map Message.dst = [9, 9] ∧
    (NodeState.new 0).neighbourhood.is_registered 9 = false := ⟨rfl, rfl⟩

/-- Witness for the amended C2 on a fresh node receiving `known = [9]`:
address 9 receives exactly one `Register`. -/
theorem C2_transitive_discovery_witness :
    (((NodeState.new 0).handle_message 0 ⟨5, 0, 1, none,
        Payload.registerOk [9]⟩).2.map Message.dst).count 9 = 1 :=
  (C2_transitive_discovery (NodeState.new 0) 0 5 0 1 none [9]).2.2.2.2 (by decide) 9 (by decide)

theorem removeAw_of_lookup_none (m : AwaitMap) (k : Nat)
    (h : lookupAw m k = none) : removeAw m k = m := by
  have hfind : m.find? (fun e => decide (e.1 = k)) = none := by
    unfold lookupAw at h
    cases hf : m.find? (fun e => decide (e.1 = k)) with
    | none => rfl
    | some e => rw [hf] at h; cases h
  have hall := List.find?_eq_none.mp hfind
  apply List.filter_eq_self.mpr
  intro e he
  simpa using hall e he

theorem handle_reply_aw (st : NodeState) (rto : Option Nat) (src : Addr) :
    (st.handle_reply rto src).awaiting_reply =
      (match rto with
       | none => st.awaiting_reply
       | some rid => removeAw st.awaiting_reply rid) := by
  cases rto with
  | none => rfl
  | some rid =>
    cases h : lookupAw st.awaiting_reply rid with
    | none =>
      show (st.handle_reply (some rid) src).awaiting_reply = removeAw st.awaiting_reply rid
      rw [removeAw_of_lookup_none st.awaiting_reply rid h]
      simp [NodeState.handle_reply, h]
    | some e =>
      obtain ⟨d, t⟩ := e
      by_cases hd : d = src <;>
        simp [NodeState.handle_reply, h, hd]

theorem emitToAll_aw (p : Payload) (dsts : List Addr) :
    ∀ st : NodeState, ∀ now : Nat,
      (emitToAll st now p dsts).1.awaiting_reply =
        (emitToAll st now p dsts).2.foldl
          (fun acc m =>
            if m.payload.requires_reply then insertAw acc m.id (m.dst, now) else acc)
          st.awaiting_reply := by
  induction dsts with
  | nil => intro st now; rfl
  | cons d rest ih =>
    intro st now
    show (emitToAll (st.message now d none p).1 now p rest).1.awaiting_reply = _
    rw [ih (st.message now d none p).1 now]
    rfl

theorem emitRegisters_aw (l : List Addr) :
    ∀ st : NodeState, ∀ now : Nat,
      (emitRegisters st now l).1.awaiting_reply =
        (emitRegisters st now l).2.foldl
          (fun acc m =>
            if m.payload.requires_reply then insertAw acc m.id (m.dst, now) else acc)
          st.awaiting_reply := by
  induction l with
  | nil => intro st now; rfl
  | cons a rest ih =>
    intro st now
    show (emitRegisters ({ st with neighbourhood := st.neighbourhood.register a }.message
        now a none Payload.register).1 now rest).1.awaiting_reply = _
    rw [ih]
    rfl

theorem step_awaiting (st : NodeState) (now : Nat) (ev : Event) :
    (st.step now ev).1.awaiting_reply =
      specUpdate st.awaiting_reply now ev (st.step now ev).2 := by
  cases ev with
  | trigger t =>
    cases t with
    | register dst => rfl
    | strike a => rfl
    | checkReplies => rfl
    | gossipRandom =>
      show (st.gossip now).1.awaiting_reply = _
      unfold NodeState.gossip
      rw [emitToAll_aw]
      rfl
    | gossipSuspects =>
      show (st.gossip_suspects now).1.awaiting_reply = _
      unfold NodeState.gossip_suspects
      by_cases h : st.neighbourhood.get_suspects = ∅
      · have houts : (st.step now (Event.trigger Trigger.gossipSuspects)).2 = [] := by
          show (st.gossip_suspects now).2 = []
          unfold NodeState.gossip_suspects
          simp [h]
        simp only [h, if_pos]
        rw [houts]
        rfl
      · have houts : (st.step now (Event.trigger Trigger.gossipSuspects)).2 =
            (emitToAll st now (Payload.gossipSuspect st.neighbourhood.get_suspects)
              st.neighbourhood.select_gossipers).2 := by
          show (st.gossip_suspects now).2 = _
          unfold NodeState.gossip_suspects
          simp [h]
        simp only [h, if_neg, ite_false]
        rw [emitToAll_aw, houts]
        rfl
  | message m =>
    obtain ⟨msrc, mdst, mid, rto, payload⟩ := m
    cases payload with
    | register => rfl
    | gossipRandom txt => rfl
    | gossipSuspect sus => rfl
    | gossipRandomOk =>
      show (({ st with neighbourhood := st.neighbourhood.dismiss msrc Charge.connection
          } : NodeState).handle_reply rto msrc).awaiting_reply = _
      rw [handle_reply_aw]
      cases rto <;> rfl
    | gossipSuspectOk =>
      show (({ st with neighbourhood := st.neighbourhood.dismiss msrc Charge.connection
          } : NodeState).handle_reply rto msrc).awaiting_reply = _
      rw [handle_reply_aw]
      cases rto <;> rfl
    | registerOk known =>
      show (emitRegisters (replyHandled st msrc rto) now
          (known.filter (fun a =>
            !((replyHandled st msrc rto).neighbourhood.is_registered a)))).1.awaiting_reply = _
      rw [emitRegisters_aw]
      have haw : (replyHandled st msrc rto).awaiting_reply =
          (match rto with
           | none => st.awaiting_reply
           | some rid => removeAw st.awaiting_reply rid) := by
        unfold replyHandled
        rw [handle_reply_aw]
      rw [haw]
      cases rto <;> rfl

/-- C4: along every event trace, the pending-reply table equals the table
prescribed by the bookkeeping specification — exactly the ids of emitted
reply-requiring messages, each mapped to its destination and dispatch
instant, minus those answered by a reply carrying the id in `reply_to` and
those dropped as stale by `CheckReplies`. -/
theorem C4_reply_bookkeeping :
    ∀ tr : List (Nat × Event), ∀ st : NodeState,
      (runNode st tr).awaiting_reply = specRun st st.awaiting_reply tr := by
  intro tr
  induction tr with
  | nil => intro st; rfl
  | cons e rest ih =>
    intro st
    obtain ⟨now, ev⟩ := e
    show (runNode (st.step now ev).1 rest).awaiting_reply = _
    rw [ih (st.step now ev).1]
    show specRun (st.step now ev).1 (st.step now ev).1.awaiting_reply rest = _
    rw [step_awaiting st now ev]
    rfl
